import Mathlib

/-!
Shallow embedding of the MetalLive price pipeline:
the three-tier price aggregator `fetchLiveMetalPrices` from
`src/server.ts` (metalService part) and the client-side simulated
ticker / rolling history from the frontend component.

JavaScript numbers are modelled by `JSNum`: either NaN, an infinity, or
an exact rational.  All arithmetic the embedded code performs
(division by the troy-ounce constant, multiplication by purity ratios,
perturbation multipliers) is exact on the rationals, and the NaN /
infinity propagation rules of IEEE multiplication and comparison are
reproduced explicitly.
-/

namespace MetalLive

/-- Model of a JavaScript number: NaN, +Infinity, -Infinity, or a finite
value represented exactly as a rational. -/
inductive JSNum where
  | nan : JSNum
  | posInf : JSNum
  | negInf : JSNum
  | fin : ℚ → JSNum
deriving DecidableEq

/-- JS `isNaN`. -/
def JSNum.isNaN : JSNum → Bool
  | .nan => true
  | _ => false

/-- JS `<` comparison: any comparison involving NaN is false; infinities
compare as expected. -/
def JSNum.blt : JSNum → JSNum → Bool
  | .nan, _ => false
  | _, .nan => false
  | .negInf, .negInf => false
  | .negInf, _ => true
  | _, .negInf => false
  | .posInf, _ => false
  | .fin _, .posInf => true
  | .fin a, .fin b => decide (a < b)

/-- JS `<=` comparison: any comparison involving NaN is false. -/
def JSNum.ble : JSNum → JSNum → Bool
  | .nan, _ => false
  | _, .nan => false
  | .negInf, _ => true
  | _, .negInf => false
  | _, .posInf => true
  | .posInf, _ => false
  | .fin a, .fin b => decide (a ≤ b)

/-- JS multiplication: NaN absorbs; an infinity times zero is NaN;
an infinity times a nonzero value keeps the product sign. -/
def JSNum.mul : JSNum → JSNum → JSNum
  | .nan, _ => .nan
  | _, .nan => .nan
  | .posInf, .posInf => .posInf
  | .posInf, .negInf => .negInf
  | .negInf, .posInf => .negInf
  | .negInf, .negInf => .posInf
  | .posInf, .fin q => if 0 < q then .posInf else if q < 0 then .negInf else .nan
  | .fin q, .posInf => if 0 < q then .posInf else if q < 0 then .negInf else .nan
  | .negInf, .fin q => if 0 < q then .negInf else if q < 0 then .posInf else .nan
  | .fin q, .negInf => if 0 < q then .negInf else if q < 0 then .posInf else .nan
  | .fin a, .fin b => .fin (a * b)

/-- JS division by a positive finite constant (the only division the
embedded code performs, by the troy-ounce factor 31.1035): NaN stays
NaN, infinities keep their sign, finite values divide exactly. -/
def JSNum.divPos (x : JSNum) (c : ℚ) : JSNum :=
  match x with
  | .nan => .nan
  | .posInf => .posInf
  | .negInf => .negInf
  | .fin q => .fin (q / c)

/-- The `MetalPrices` record returned by `fetchLiveMetalPrices`
(src/server.ts, interface `MetalPrices`). -/
structure MetalPrices where
  gold24k : JSNum
  gold22k : JSNum
  gold18k : JSNum
  silver : JSNum
  copper : JSNum
  lastUpdated : String
  currency : String
deriving DecidableEq

/-- Outcome of one external call: success with a payload, a non-2xx
upstream error, or a network-level transport failure. -/
inductive FetchOutcome (α : Type) where
  | ok : α → FetchOutcome α
  | upstreamError : FetchOutcome α
  | transportError : FetchOutcome α
deriving DecidableEq

/-- Whether an outcome is a failure. -/
def FetchOutcome.isErr : FetchOutcome α → Bool
  | .ok _ => false
  | _ => true

/-- A failed call raises in the embedded semantics: represent the raise
as `Except.error`. -/
def FetchOutcome.toExcept : FetchOutcome α → Except String α
  | .ok a => .ok a
  | .upstreamError => .error "UpstreamError"
  | .transportError => .error "TransportError"

/-- Copper price used by the tier-1 snapshot (src/server.ts lines
171-181): start from the constant 945.25; if the generative copper
query succeeds and `parseFloat` of its text is not NaN, use that value;
any failure keeps the constant. -/
def copperOf : FetchOutcome JSNum → JSNum
  | .ok v => if v.isNaN then .fin 945.25 else v
  | _ => .fin 945.25

set_option linter.unusedVariables false in
/-- Tier-1 snapshot construction (src/server.ts lines 154-191), given
the gold and silver quote prices (the `price` fields of the two adapter
responses) and the copper query outcome.  Note: the clamped values
`finalGold24k` and `finalSilver` are computed exactly as in the source,
and exactly as in the source the returned `gold24k` and `silver` fields
are the raw conversions, while `gold22k`/`gold18k` derive from
`finalGold24k`. -/
def tier1Snapshot (goldPrice silverPrice : JSNum)
    (copperOutcome : FetchOutcome JSNum) (now : String) : MetalPrices :=
  let goldPricePerGram24k := goldPrice.divPos 31.1035
  let finalGold24k :=
    if (JSNum.fin 5000).blt goldPricePerGram24k
        && goldPricePerGram24k.blt (JSNum.fin 12000)
    then goldPricePerGram24k
    else JSNum.fin 8250.50
  let goldPricePerGram22k := finalGold24k.mul (.fin (22 / 24))
  let goldPricePerGram18k := finalGold24k.mul (.fin (18 / 24))
  let silverPricePerKg := (silverPrice.divPos 31.1035).mul (.fin 1000)
  let finalSilver :=
    if (JSNum.fin 50000).blt silverPricePerKg
        && silverPricePerKg.blt (JSNum.fin 150000)
    then silverPricePerKg
    else JSNum.fin 105000.75
  { gold24k := goldPricePerGram24k
    gold22k := goldPricePerGram22k
    gold18k := goldPricePerGram18k
    silver := silverPricePerKg
    copper := copperOf copperOutcome
    lastUpdated := now
    currency := "INR" }

/-- Parsed JSON payload of the tier-2 generative fallback.  Each numeric
field holds the result of the `Number(...)` coercion applied to the
corresponding JSON member (a missing member coerces to NaN);
`last_updated_time` is `none` when the member is absent or falsy. -/
structure ParsedData where
  gold24k_per_gram : JSNum
  gold22k_per_gram : JSNum
  gold18k_per_gram : JSNum
  silver_per_kg : JSNum
  copper_per_kg : JSNum
  last_updated_time : Option String
deriving DecidableEq

/-- Per-field validation used by the tier-2 snapshot (src/server.ts
lines 217-220): `isNaN(num) || num <= 0 ? fallback : num`. -/
def validate (val : JSNum) (fallback : ℚ) : JSNum :=
  if val.isNaN || val.ble (.fin 0) then .fin fallback else val

/-- Tier-2 snapshot from a successfully parsed generative JSON response
(src/server.ts lines 222-230). -/
def tier2Snapshot (d : ParsedData) (now : String) : MetalPrices :=
  { gold24k := validate d.gold24k_per_gram 8650
    gold22k := validate d.gold22k_per_gram 7930
    gold18k := validate d.gold18k_per_gram 6480
    silver := validate d.silver_per_kg 108500
    copper := validate d.copper_per_kg 920
    lastUpdated := d.last_updated_time.getD now
    currency := "INR" }

/-- Tier-3 fully static snapshot (src/server.ts lines 232-240). -/
def staticSnapshot (now : String) : MetalPrices :=
  { gold24k := .fin 8650
    gold22k := .fin 7930
    gold18k := .fin 6480
    silver := .fin 108500
    copper := .fin 920
    lastUpdated := now
    currency := "INR" }

/-- Outcome of the tier-2 generative call: a successfully parsed JSON
payload, a response whose text fails `JSON.parse`, or a transport
failure. -/
inductive GenOutcome where
  | ok : ParsedData → GenOutcome
  | badJson : GenOutcome
  | transportError : GenOutcome
deriving DecidableEq

/-- Whether a generative outcome is a failure. -/
def GenOutcome.isErr : GenOutcome → Bool
  | .ok _ => false
  | _ => true

/-- Tier-1 body as it appears inside the outer `try`: awaiting the two
adapter calls re-raises their failure; the pure conversion code then
builds the snapshot. -/
def tier1E (goldOutcome silverOutcome : FetchOutcome JSNum)
    (copperOutcome : FetchOutcome JSNum) (now : String) :
    Except String MetalPrices := do
  let goldPrice ← goldOutcome.toExcept
  let silverPrice ← silverOutcome.toExcept
  pure (tier1Snapshot goldPrice silverPrice copperOutcome now)

/-- Tier-2 body as it appears inside the inner `try`: a transport
failure or a `JSON.parse` failure raises; otherwise the validated
snapshot is returned. -/
def tier2E (gen : GenOutcome) (now : String) : Except String MetalPrices :=
  match gen with
  | .ok d => .ok (tier2Snapshot d now)
  | .badJson => .error "ParseError"
  | .transportError => .error "TransportError"

/-- The full `fetchLiveMetalPrices` (src/server.ts lines 143-243) over
the outcomes of its external calls: try tier 1; on failure try tier 2;
on failure return the static tier-3 snapshot. -/
def fetchLiveMetalPrices (goldOutcome silverOutcome copperOutcome :
    FetchOutcome JSNum) (gen : GenOutcome) (now : String) : MetalPrices :=
  match tier1E goldOutcome silverOutcome copperOutcome now with
  | .ok p => p
  | .error _ =>
    match tier2E gen now with
    | .ok p => p
    | .error _ => staticSnapshot now

/-- The same fallback chain with the raise/catch structure left visible:
each catch handler is total, so the result is `Except`-valued only to
show that no error survives the final handler. -/
def fetchE (goldOutcome silverOutcome copperOutcome : FetchOutcome JSNum)
    (gen : GenOutcome) (now : String) : Except String MetalPrices :=
  Except.tryCatch (tier1E goldOutcome silverOutcome copperOutcome now)
    fun _ =>
      Except.tryCatch (tier2E gen now) fun _ => .ok (staticSnapshot now)

/-- One perturbation of the live-ticker simulation (the `fluctuate`
closure in the frontend App component, src/unnamed/part_000 lines
141-146), with the random draw `u` (the value of
`Math.random() * 0.001 - 0.0005`) made explicit. -/
def fluctuate (u : ℚ) (val : JSNum) : JSNum :=
  if val.isNaN then .fin 1000
  else
    let change := JSNum.fin (1 + u)
    let result := val.mul change
    if result.isNaN then val else result

/-- One ticker step on the live snapshot (src/unnamed/part_000 lines
148-155): each of the five price fields is perturbed independently with
its own draw; the remaining fields are spread unchanged. -/
def tickPrices (u24 u22 u18 uS uC : ℚ) (prev : MetalPrices) : MetalPrices :=
  { prev with
    gold24k := fluctuate u24 prev.gold24k
    gold22k := fluctuate u22 prev.gold22k
    gold18k := fluctuate u18 prev.gold18k
    silver := fluctuate uS prev.silver
    copper := fluctuate uC prev.copper }

/-- One chart history point (interface `PriceHistory` in
src/unnamed/part_000). -/
structure PriceHistory where
  time : String
  value : JSNum
deriving DecidableEq

/-- One per-metal history update of a ticker step (src/unnamed/part_000
lines 163-168): when the metal value is not NaN, keep the last 19
entries (`slice(-19)`) and append the new point; a NaN value leaves the
history unchanged. -/
def historyStep (h : List PriceHistory) (now : String) (val : JSNum) :
    List PriceHistory :=
  if val.isNaN then h
  else h.drop (h.length - 19) ++ [⟨now, val⟩]

/-- The per-metal history produced by a sequence of ticks starting from
the empty history (the initial `history` state), each tick supplying a
timestamp and that metal's value. -/
def runHistory (ins : List (String × JSNum)) : List PriceHistory :=
  ins.foldl (fun h p => historyStep h p.1 p.2) []

/-- The last `n` elements of a list: the shape of the rolling chart
window that `historyStep` maintains. -/
def lastN (n : ℕ) (l : List α) : List α := l.drop (l.length - n)

theorem lastN_of_length_le (n : ℕ) (l : List α) (h : l.length ≤ n) :
    lastN n l = l := by
  simp [lastN, Nat.sub_eq_zero_of_le h]

theorem lastN_append_lastN (n : ℕ) (l l₂ : List α) :
    lastN n (lastN n l ++ l₂) = lastN n (l ++ l₂) := by
  by_cases h : l.length ≤ n
  · rw [lastN_of_length_le n l h]
  · unfold lastN
    rw [List.length_append, List.length_append, List.length_drop,
      List.drop_append_eq_append_drop, List.drop_append_eq_append_drop,
      List.drop_drop, List.length_drop]
    have e1 : l.length - n + (l.length - (l.length - n) + l₂.length - n)
        = l.length + l₂.length - n := by omega
    have e2 : l.length - (l.length - n) + l₂.length - n
        - (l.length - (l.length - n))
        = l.length + l₂.length - n - l.length := by omega
    rw [e1, e2]

theorem historyStep_eq_lastN (h : List PriceHistory) (t : String) (v : JSNum)
    (hv : v.isNaN = false) :
    historyStep h t v = lastN 20 (h ++ [⟨t, v⟩]) := by
  unfold historyStep lastN
  rw [if_neg (by simp [hv])]
  simp only [List.length_append, List.length_singleton,
    List.drop_append_eq_append_drop]
  have e1 : h.length + 1 - 20 = h.length - 19 := by omega
  have e2 : h.length - 19 - h.length = 0 := by omega
  rw [e1, e2, List.drop_zero]

theorem length_historyStep_le (h : List PriceHistory) (t : String) (v : JSNum)
    (hlen : h.length ≤ 20) : (historyStep h t v).length ≤ 20 := by
  unfold historyStep
  by_cases hv : v.isNaN <;> simp [hv] <;> omega

theorem length_foldl_historyStep_le (ins : List (String × JSNum)) :
    ∀ h : List PriceHistory, h.length ≤ 20 →
      (ins.foldl (fun acc p => historyStep acc p.1 p.2) h).length ≤ 20 := by
  induction ins with
  | nil => intro h hl; simpa using hl
  | cons q ins ih => intro h hl; exact ih _ (length_historyStep_le h q.1 q.2 hl)

theorem foldl_historyStep_eq (ins : List (String × JSNum)) :
    ∀ h : List PriceHistory, (∀ p ∈ ins, (p.2).isNaN = false) →
      h.length ≤ 20 →
      ins.foldl (fun acc p => historyStep acc p.1 p.2) h
        = lastN 20 (h ++ ins.map fun p => ⟨p.1, p.2⟩) := by
  induction ins with
  | nil =>
    intro h _ hlen
    simpa using (lastN_of_length_le 20 h hlen).symm
  | cons q ins ih =>
    intro h hnan hlen
    simp only [List.foldl_cons, List.map_cons]
    rw [ih _ (fun p hp => hnan p (List.mem_cons_of_mem q hp))
      (length_historyStep_le h q.1 q.2 hlen)]
    rw [historyStep_eq_lastN _ _ _ (hnan q (List.mem_cons_self q ins))]
    rw [lastN_append_lastN]
    simp

theorem validate_eq (num : JSNum) (fb : ℚ) :
    validate num fb
      = if !num.isNaN && (JSNum.fin 0).blt num then num else .fin fb := by
  cases num with
  | nan => rfl
  | posInf => rfl
  | negInf => rfl
  | fin q =>
    by_cases hq : q ≤ 0
    · simp [validate, JSNum.ble, JSNum.blt, JSNum.isNaN, hq, not_lt.mpr hq]
    · simp [validate, JSNum.ble, JSNum.blt, JSNum.isNaN, hq,
        lt_of_not_le hq]

theorem JSNum.mul_one_of_notNaN (v : JSNum) (hv : v.isNaN = false) :
    v.mul (.fin 1) = v := by
  cases v with
  | nan => simp [JSNum.isNaN] at hv
  | posInf => norm_num [JSNum.mul]
  | negInf => norm_num [JSNum.mul]
  | fin q => simp [JSNum.mul]

theorem fluctuate_zero (v : JSNum) (hv : v.isNaN = false) :
    fluctuate 0 v = v := by
  have h1 : (1 + (0 : ℚ)) = 1 := by norm_num
  simp [fluctuate, hv, h1, JSNum.mul_one_of_notNaN v hv]

/-- C1: the claim fails on the code.  With an implausible gold quote
(price 50 per troy ounce, per-gram conversion about 1.61, outside
(5000, 12000)) the returned `gold24k` is the raw conversion
50 / 31.1035 rather than the fallback constant 8250.50, and with an
implausible silver quote (price 50, per-kg conversion about 1607.5,
outside (50000, 150000)) the returned `silver` is the raw conversion
rather than 105000.75: the source computes the clamped `finalGold24k`
and `finalSilver` but returns the unclamped conversions in those two
fields. -/
theorem gate_not_applied_to_returned_fields :
    ((fetchLiveMetalPrices (.ok (.fin 50)) (.ok (.fin 3110.35))
        .transportError .badJson "t").gold24k = .fin (50 / 31.1035)
      ∧ (50 : ℚ) / 31.1035 ≠ 8250.50)
    ∧ ((fetchLiveMetalPrices (.ok (.fin 248828)) (.ok (.fin 50))
        .transportError .badJson "t").silver = .fin (50 / 31.1035 * 1000)
      ∧ (50 : ℚ) / 31.1035 * 1000 ≠ 105000.75) :=
  ⟨⟨rfl, by norm_num⟩, rfl, by norm_num⟩

/-- C2: counterexample to the claim as stated.  When both tiers fail,
the returned (tier-3) snapshot has gold22k = 7930 while
gold24k * 22/24 = 8650 * 22/24 = 7929.1666…, so the purity-ratio
invariant does not hold for every snapshot. -/
theorem static_snapshot_breaks_purity_ratio :
    (fetchLiveMetalPrices .transportError .transportError .transportError
        .badJson "t").gold22k
      ≠ ((fetchLiveMetalPrices .transportError .transportError
          .transportError .badJson "t").gold24k).mul (.fin (22 / 24)) := by
  have h : fetchLiveMetalPrices .transportError .transportError
      .transportError .badJson "t" = staticSnapshot "t" := rfl
  rw [h]
  norm_num [staticSnapshot, JSNum.mul]

/-- C2 (amended): in the tier-1 path, when the gold per-gram conversion
lies inside (5000, 12000), the returned snapshot satisfies
gold22k == gold24k * 22/24 and gold18k == gold24k * 18/24; snapshots
from the other tiers, and tier-1 snapshots with an out-of-band gold
conversion, need not satisfy the ratios. -/
theorem tier1_in_band_purity_ratios (gp : ℚ) (sv : JSNum)
    (cO : FetchOutcome JSNum) (gen : GenOutcome) (now : String)
    (h1 : 5000 < gp / 31.1035) (h2 : gp / 31.1035 < 12000) :
    (fetchLiveMetalPrices (.ok (.fin gp)) (.ok sv) cO gen now).gold22k
      = ((fetchLiveMetalPrices (.ok (.fin gp)) (.ok sv) cO gen
          now).gold24k).mul (.fin (22 / 24))
    ∧ (fetchLiveMetalPrices (.ok (.fin gp)) (.ok sv) cO gen now).gold18k
      = ((fetchLiveMetalPrices (.ok (.fin gp)) (.ok sv) cO gen
          now).gold24k).mul (.fin (18 / 24)) := by
  have hfetch : fetchLiveMetalPrices (.ok (.fin gp)) (.ok sv) cO gen now
      = tier1Snapshot (.fin gp) sv cO now := rfl
  rw [hfetch]
  simp [tier1Snapshot, JSNum.blt, JSNum.divPos, h1, h2]

/-- Witness for C2 (amended) at a concrete in-band gold quote
(248828 / 31.1035 = 8000 exactly). -/
theorem tier1_in_band_purity_ratios_witness :
    (5000 < (248828 : ℚ) / 31.1035 ∧ (248828 : ℚ) / 31.1035 < 12000)
    ∧ (fetchLiveMetalPrices (.ok (.fin 248828)) (.ok (.fin 3110.35))
        .transportError .badJson "t").gold22k
      = ((fetchLiveMetalPrices (.ok (.fin 248828)) (.ok (.fin 3110.35))
          .transportError .badJson "t").gold24k).mul (.fin (22 / 24)) :=
  ⟨⟨by norm_num, by norm_num⟩,
    (tier1_in_band_purity_ratios 248828 (.fin 3110.35) .transportError
      .badJson "t" (by norm_num) (by norm_num)).1⟩

/-- C3: fetchLiveMetalPrices is total.  Over every combination of
adapter outcomes and generative-call outcomes, the raise/catch chain
`fetchE` ends in a success value and never propagates an error, and
that value is exactly what `fetchLiveMetalPrices` returns. -/
theorem fetch_never_raises (gO sO cO : FetchOutcome JSNum)
    (gen : GenOutcome) (now : String) :
    ∃ p : MetalPrices, fetchE gO sO cO gen now = .ok p
      ∧ fetchLiveMetalPrices gO sO cO gen now = p := by
  cases gO <;> cases sO <;> cases gen <;> exact ⟨_, rfl, rfl⟩

set_option linter.unusedVariables false in
/-- C4: for quote pairs whose gold per-gram conversion is in
(5000, 12000) and whose silver per-kg conversion is in
(50000, 150000), the returned snapshot carries the direct conversions
gold24k = goldPrice / 31.1035 and
silver = silverPrice / 31.1035 * 1000, with no fallback constant
substituted. -/
theorem in_band_returns_direct_conversion (gp sp : ℚ)
    (cO : FetchOutcome JSNum) (gen : GenOutcome) (now : String)
    (h1 : 5000 < gp / 31.1035) (h2 : gp / 31.1035 < 12000)
    (h3 : 50000 < sp / 31.1035 * 1000) (h4 : sp / 31.1035 * 1000 < 150000) :
    (fetchLiveMetalPrices (.ok (.fin gp)) (.ok (.fin sp)) cO gen
        now).gold24k = .fin (gp / 31.1035)
    ∧ (fetchLiveMetalPrices (.ok (.fin gp)) (.ok (.fin sp)) cO gen
        now).silver = .fin (sp / 31.1035 * 1000) :=
  ⟨rfl, rfl⟩

/-- Witness for C4 at a concrete in-band quote pair:
248828 / 31.1035 = 8000 and 3110.35 / 31.1035 * 1000 = 100000. -/
theorem in_band_returns_direct_conversion_witness :
    (5000 < (248828 : ℚ) / 31.1035 ∧ (248828 : ℚ) / 31.1035 < 12000
      ∧ 50000 < (3110.35 : ℚ) / 31.1035 * 1000
      ∧ (3110.35 : ℚ) / 31.1035 * 1000 < 150000)
    ∧ (fetchLiveMetalPrices (.ok (.fin 248828)) (.ok (.fin 3110.35))
        .transportError .badJson "t").gold24k
      = .fin ((248828 : ℚ) / 31.1035) :=
  ⟨⟨by norm_num, by norm_num, by norm_num, by norm_num⟩,
    (in_band_returns_direct_conversion 248828 3110.35 .transportError
      .badJson "t" (by norm_num) (by norm_num) (by norm_num)
      (by norm_num)).1⟩

/-- C5: counterexample to the claim as stated.  A tier-2 field whose
coerced value is +Infinity is not finite, so the claim requires the
fallback constant, but the validation only rejects NaN and
non-positive values: the snapshot keeps +Infinity. -/
theorem tier2_infinite_field_not_replaced :
    (fetchLiveMetalPrices .transportError .transportError .transportError
        (.ok ⟨.posInf, .fin 7900, .fin 6400, .fin 100000, .fin 900, none⟩)
        "t").gold24k = .posInf
    ∧ JSNum.posInf ≠ .fin 8650 :=
  ⟨rfl, by decide⟩

/-- C5 (amended): each of the five tier-2 price fields equals the
coerced number whenever that number is not NaN and is strictly greater
than 0 under JS comparison (so +Infinity is kept as-is), and otherwise
equals that field fallback constant, each field validated
independently of the others. -/
theorem tier2_fields_validated_independently (d : ParsedData)
    (now : String) :
    (tier2Snapshot d now).gold24k
      = (if !d.gold24k_per_gram.isNaN
            && (JSNum.fin 0).blt d.gold24k_per_gram
         then d.gold24k_per_gram else .fin 8650)
    ∧ (tier2Snapshot d now).gold22k
      = (if !d.gold22k_per_gram.isNaN
            && (JSNum.fin 0).blt d.gold22k_per_gram
         then d.gold22k_per_gram else .fin 7930)
    ∧ (tier2Snapshot d now).gold18k
      = (if !d.gold18k_per_gram.isNaN
            && (JSNum.fin 0).blt d.gold18k_per_gram
         then d.gold18k_per_gram else .fin 6480)
    ∧ (tier2Snapshot d now).silver
      = (if !d.silver_per_kg.isNaN && (JSNum.fin 0).blt d.silver_per_kg
         then d.silver_per_kg else .fin 108500)
    ∧ (tier2Snapshot d now).copper
      = (if !d.copper_per_kg.isNaN && (JSNum.fin 0).blt d.copper_per_kg
         then d.copper_per_kg else .fin 920) :=
  ⟨validate_eq _ _, validate_eq _ _, validate_eq _ _, validate_eq _ _,
    validate_eq _ _⟩

/-- C6: when the primary adapter path fails (either quote call) and the
generative-JSON fallback also fails, the returned snapshot is exactly
the static one: prices (8650, 7930, 6480, 108500, 920), currency INR,
lastUpdated the current time. -/
theorem both_tiers_fail_returns_static (gO sO cO : FetchOutcome JSNum)
    (gen : GenOutcome) (now : String)
    (h1 : (gO.isErr || sO.isErr) = true) (h2 : gen.isErr = true) :
    fetchLiveMetalPrices gO sO cO gen now
      = { gold24k := .fin 8650, gold22k := .fin 7930,
          gold18k := .fin 6480, silver := .fin 108500,
          copper := .fin 920, lastUpdated := now, currency := "INR" }
    ∧ fetchLiveMetalPrices gO sO cO gen now = staticSnapshot now := by
  cases gO <;> cases sO <;> cases gen <;>
    first
      | exact ⟨rfl, rfl⟩
      | simp [FetchOutcome.isErr, GenOutcome.isErr] at h1 h2

/-- Witness for C6 with both adapter calls failing upstream and the
generative call returning malformed JSON. -/
theorem both_tiers_fail_returns_static_witness :
    (((FetchOutcome.upstreamError : FetchOutcome JSNum)).isErr
        || ((FetchOutcome.upstreamError : FetchOutcome JSNum)).isErr)
      = true
    ∧ GenOutcome.badJson.isErr = true
    ∧ fetchLiveMetalPrices .upstreamError .upstreamError .upstreamError
        .badJson "now" = staticSnapshot "now" :=
  ⟨rfl, rfl,
    (both_tiers_fail_returns_static .upstreamError .upstreamError
      .upstreamError .badJson "now" rfl rfl).2⟩

/-- C7: ticker zero-drift idempotence.  If every price field of the
snapshot is non-NaN and each perturbation draw is fixed at 0 (so each
multiplier is 1), one tick returns the five price fields unchanged. -/
theorem tick_zero_drift (p : MetalPrices)
    (h24 : p.gold24k.isNaN = false) (h22 : p.gold22k.isNaN = false)
    (h18 : p.gold18k.isNaN = false) (hS : p.silver.isNaN = false)
    (hC : p.copper.isNaN = false) :
    (tickPrices 0 0 0 0 0 p).gold24k = p.gold24k
    ∧ (tickPrices 0 0 0 0 0 p).gold22k = p.gold22k
    ∧ (tickPrices 0 0 0 0 0 p).gold18k = p.gold18k
    ∧ (tickPrices 0 0 0 0 0 p).silver = p.silver
    ∧ (tickPrices 0 0 0 0 0 p).copper = p.copper :=
  ⟨fluctuate_zero _ h24, fluctuate_zero _ h22, fluctuate_zero _ h18,
    fluctuate_zero _ hS, fluctuate_zero _ hC⟩

/-- Witness for C7 on the static snapshot, whose fields are finite. -/
theorem tick_zero_drift_witness :
    (staticSnapshot "t").gold24k.isNaN = false
    ∧ (tickPrices 0 0 0 0 0 (staticSnapshot "t")).gold24k
      = (staticSnapshot "t").gold24k :=
  ⟨rfl, (tick_zero_drift (staticSnapshot "t") rfl rfl rfl rfl rfl).1⟩

/-- C8: the ticker never emits NaN.  For every input value and every
perturbation draw, `fluctuate` returns a non-NaN number: the constant
1000 when the prior value is NaN, the unperturbed prior value when the
perturbed result is NaN, and the perturbed value otherwise. -/
theorem fluctuate_never_nan (u : ℚ) (val : JSNum) :
    (fluctuate u val).isNaN = false
    ∧ fluctuate u .nan = .fin 1000
    ∧ (val.isNaN = false → (val.mul (.fin (1 + u))).isNaN = true →
        fluctuate u val = val)
    ∧ (val.isNaN = false → (val.mul (.fin (1 + u))).isNaN = false →
        fluctuate u val = val.mul (.fin (1 + u))) := by
  refine ⟨?_, rfl, ?_, ?_⟩
  · by_cases hv : val.isNaN = true
    · have hval : val = .nan := by cases val <;> simp_all [JSNum.isNaN]
      subst hval; rfl
    · have hv0 : val.isNaN = false := by simpa using hv
      by_cases hr : (val.mul (.fin (1 + u))).isNaN = true
      · simp [fluctuate, hv0, hr]
      · have hr0 : (val.mul (.fin (1 + u))).isNaN = false := by
          simpa using hr
        simp [fluctuate, hv0, hr0]
  · intro hv hr
    simp [fluctuate, hv, hr]
  · intro hv hr
    simp [fluctuate, hv, hr]

/-- Witness for C8: the prior +Infinity with draw -1 makes the
perturbed product NaN (Infinity times 0), and the ticker keeps the
unperturbed prior. -/
theorem fluctuate_never_nan_witness :
    JSNum.posInf.isNaN = false
    ∧ (JSNum.posInf.mul (.fin (1 + -1))).isNaN = true
    ∧ fluctuate (-1) .posInf = .posInf := by
  refine ⟨rfl, ?_, ?_⟩
  · norm_num [JSNum.mul, JSNum.isNaN]
  · exact (fluctuate_never_nan (-1) .posInf).2.2.1 rfl
      (by norm_num [JSNum.mul, JSNum.isNaN])

/-- C9: per-metal history is a sliding window of capacity 20.  After
any sequence of ticks starting from the empty history the sequence has
length at most 20, and after 25 ticks with non-NaN values it equals
exactly the last 20 appended points in append order. -/
theorem history_sliding_window (ins : List (String × JSNum)) :
    (runHistory ins).length ≤ 20
    ∧ (ins.length = 25 → (∀ p ∈ ins, (p.2).isNaN = false) →
        runHistory ins = (ins.map fun p => ⟨p.1, p.2⟩).drop 5) := by
  constructor
  · exact length_foldl_historyStep_le ins [] (by simp)
  · intro h25 hnan
    unfold runHistory
    rw [foldl_historyStep_eq ins [] hnan (by simp)]
    unfold lastN
    simp [h25]

/-- Witness for C9 on a concrete sequence of 25 non-NaN ticks. -/
theorem history_sliding_window_witness :
    (List.replicate 25 ("t", JSNum.fin 1)).length = 25
    ∧ (∀ p ∈ List.replicate 25 ("t", JSNum.fin 1),
        (p.2).isNaN = false)
    ∧ runHistory (List.replicate 25 ("t", JSNum.fin 1))
      = ((List.replicate 25 ("t", JSNum.fin 1)).map
          fun p => ⟨p.1, p.2⟩).drop 5 := by
  refine ⟨rfl, ?_, ?_⟩
  · intro p hp
    rw [List.eq_of_mem_replicate hp]
    rfl
  · exact (history_sliding_window (List.replicate 25 ("t", JSNum.fin 1))).2
      rfl (fun p hp => by rw [List.eq_of_mem_replicate hp]; rfl)

/-- C10: every snapshot returned by fetchLiveMetalPrices, on every
execution path, has its currency field equal to "INR". -/
theorem snapshot_currency_INR (gO sO cO : FetchOutcome JSNum)
    (gen : GenOutcome) (now : String) :
    (fetchLiveMetalPrices gO sO cO gen now).currency = "INR" := by
  cases gO <;> cases sO <;> cases gen <;> rfl

end MetalLive
